import Mathlib

/-!
Verification of the comicvault-md backend (FastAPI + Pillow + OpenAI vision).

Shallow embedding of:
  * `utils/image_processing.py` — `load_image_as_pillow`, `resize_image`
    (via Pillow's `Image.thumbnail`), `validate_image_format`,
    `optimize_image_for_api`;
  * `utils/vision_analysis.py` — `analyze_comic_cover` (the external model
    call is a parameter; the final `json.loads` is modelled by a JSON parser);
  * `routes/identify.py` — `identify_comic`;
  * `main.py` — `health_check`.

External effects (image decoding, the network call, JPEG encoding, the
process environment) are parameters of the embedded functions, so each
theorem quantifies over their behaviour.
-/

/-- JSON values as decoded by Python's `json.loads`.  Numeric literals keep
their source lexeme (so no floating-point semantics are needed); objects keep
their members in source order, as CPython's `dict` preserves insertion
order. -/
inductive Json where
  | null : Json
  | bool (b : Bool) : Json
  | num (lexeme : String) : Json
  | str (s : String) : Json
  | arr (elements : List Json) : Json
  | obj (members : List (String × Json)) : Json
deriving Repr

/-- The opening-brace character, written by code point. -/
def lbrace : Char := Char.ofNat 123

/-- The closing-brace character, written by code point. -/
def rbrace : Char := Char.ofNat 125

/-- JSON whitespace accepted by Python's decoder: space, tab, LF, CR. -/
def isJsonWs (c : Char) : Bool := c = ' ' || c = '\t' || c = '\n' || c = '\r'

/-- Drop leading JSON whitespace. -/
def skipWs : List Char → List Char
  | [] => []
  | c :: cs => if isJsonWs c then skipWs cs else c :: cs

/-- Value of one hexadecimal digit. -/
def hexDigit (c : Char) : Option Nat :=
  if '0' ≤ c ∧ c ≤ '9' then some (c.toNat - '0'.toNat)
  else if 'a' ≤ c ∧ c ≤ 'f' then some (c.toNat - 'a'.toNat + 10)
  else if 'A' ≤ c ∧ c ≤ 'F' then some (c.toNat - 'A'.toNat + 10)
  else none

/-- Read four hexadecimal digits (the `\uXXXX` escape payload). -/
def parseHex4 : List Char → Option (Nat × List Char)
  | a :: b :: c :: d :: rest => do
    let x ← hexDigit a
    let y ← hexDigit b
    let z ← hexDigit c
    let w ← hexDigit d
    pure (((x * 16 + y) * 16 + z) * 16 + w, rest)
  | _ => none

/-- Translation of a single-character JSON string escape. -/
def escChar (c : Char) : Option Char :=
  if c = '"' then some '"'
  else if c = '\\' then some '\\'
  else if c = '/' then some '/'
  else if c = 'b' then some (Char.ofNat 8)
  else if c = 'f' then some (Char.ofNat 12)
  else if c = 'n' then some '\n'
  else if c = 'r' then some '\r'
  else if c = 't' then some '\t'
  else none

/-- Body of a JSON string, after the opening quote (strict mode: raw control
characters are rejected; `\uXXXX` yields the corresponding code point —
surrogate-pair recombination is not modelled, no claim depends on it). -/
def parseStringBody (fuel : Nat) (cs : List Char) (acc : List Char) :
    Option (String × List Char) :=
  match fuel, cs with
  | 0, _ => none
  | _ + 1, [] => none
  | f + 1, c :: rest =>
    if c = '"' then some (String.mk acc.reverse, rest)
    else if c = '\\' then
      match rest with
      | [] => none
      | e :: rest2 =>
        if e = 'u' then
          match parseHex4 rest2 with
          | some (n, rest3) => parseStringBody f rest3 (Char.ofNat n :: acc)
          | none => none
        else
          match escChar e with
          | some d => parseStringBody f rest2 (d :: acc)
          | none => none
    else if c.toNat < 32 then none
    else parseStringBody f rest (c :: acc)

/-- Longest leading run of decimal digits. -/
def spanDigits : List Char → List Char × List Char
  | [] => ([], [])
  | c :: cs =>
    if c.isDigit then
      let (ds, r) := spanDigits cs
      (c :: ds, r)
    else ([], c :: cs)

/-- Integer part of a JSON number: `0`, or a nonzero digit followed by
digits (leading zeros are rejected, as in the `json` module's regex). -/
def parseIntDigits : List Char → Option (List Char × List Char)
  | [] => none
  | c :: cs =>
    if c = '0' then some ([c], cs)
    else if c.isDigit then
      let (ds, r) := spanDigits cs
      some (c :: ds, r)
    else none

/-- Optional fraction part `.digits`; consumes nothing when absent. -/
def parseFrac (cs : List Char) : List Char × List Char :=
  match cs with
  | '.' :: c :: rest =>
    if c.isDigit then
      let (ds, r) := spanDigits rest
      ('.' :: c :: ds, r)
    else ([], cs)
  | _ => ([], cs)

/-- Optional exponent part `[eE][+-]?digits`; consumes nothing when absent. -/
def parseExp (cs : List Char) : List Char × List Char :=
  match cs with
  | e :: rest =>
    if e = 'e' ∨ e = 'E' then
      let sr : List Char × List Char :=
        match rest with
        | s :: r => if s = '+' ∨ s = '-' then ([s], r) else ([], s :: r)
        | [] => ([], [])
      match sr.2 with
      | d :: r2 =>
        if d.isDigit then
          let (ds, r3) := spanDigits r2
          (e :: (sr.1 ++ d :: ds), r3)
        else ([], cs)
      | [] => ([], cs)
    else ([], cs)
  | [] => ([], cs)

/-- A JSON number token, following the `json` module's `NUMBER_RE`. -/
def parseNumberToken (cs : List Char) : Option (String × List Char) :=
  let sr : List Char × List Char :=
    match cs with
    | '-' :: r => (['-'], r)
    | _ => ([], cs)
  match parseIntDigits sr.2 with
  | none => none
  | some (ip, r1) =>
    let (fp, r2) := parseFrac r1
    let (ep, r3) := parseExp r2
    some (String.mk (sr.1 ++ ip ++ fp ++ ep), r3)

/-- Match a fixed literal such as `true`. -/
def dropLit : List Char → List Char → Option (List Char)
  | [], rest => some rest
  | l :: ls, c :: rest => if c = l then dropLit ls rest else none
  | _ :: _, [] => none

mutual

/-- One JSON value, recursive-descent with fuel (model of the `json`
module's scanner; `NaN`/`Infinity` are accepted, as CPython does by
default). -/
def parseValue : Nat → List Char → Option (Json × List Char)
  | 0, _ => none
  | fuel + 1, cs =>
    match cs with
    | [] => none
    | c :: rest =>
      if c = '"' then
        match parseStringBody (fuel + 1) rest [] with
        | some (s, r) => some (.str s, r)
        | none => none
      else if c = lbrace then parseObjTail fuel (skipWs rest)
      else if c = '[' then parseArrTail fuel (skipWs rest)
      else
        match dropLit ['t', 'r', 'u', 'e'] cs with
        | some r => some (.bool true, r)
        | none =>
          match dropLit ['f', 'a', 'l', 's', 'e'] cs with
          | some r => some (.bool false, r)
          | none =>
            match dropLit ['n', 'u', 'l', 'l'] cs with
            | some r => some (.null, r)
            | none =>
              match dropLit ['N', 'a', 'N'] cs with
              | some r => some (.num "NaN", r)
              | none =>
                match dropLit ['I', 'n', 'f', 'i', 'n', 'i', 't', 'y'] cs with
                | some r => some (.num "Infinity", r)
                | none =>
                  match dropLit ['-', 'I', 'n', 'f', 'i', 'n', 'i', 't', 'y'] cs with
                  | some r => some (.num "-Infinity", r)
                  | none =>
                    match parseNumberToken cs with
                    | some (tok, r) => some (.num tok, r)
                    | none => none

/-- Object body after the opening brace (whitespace already skipped). -/
def parseObjTail : Nat → List Char → Option (Json × List Char)
  | 0, _ => none
  | fuel + 1, cs =>
    match cs with
    | [] => none
    | c :: rest =>
      if c = rbrace then some (.obj [], rest)
      else if c = '"' then
        match parseStringBody (fuel + 1) rest [] with
        | some (key, r1) => parseMember fuel key [] r1
        | none => none
      else none

/-- After a member key: expect `: value`, then `, key…` or the closing
brace. -/
def parseMember : Nat → String → List (String × Json) → List Char →
    Option (Json × List Char)
  | 0, _, _, _ => none
  | fuel + 1, key, acc, cs =>
    match skipWs cs with
    | ':' :: r =>
      match parseValue fuel (skipWs r) with
      | some (v, r2) =>
        match skipWs r2 with
        | ',' :: r3 =>
          match skipWs r3 with
          | q :: r4 =>
            if q = '"' then
              match parseStringBody fuel r4 [] with
              | some (key2, r5) => parseMember fuel key2 (acc ++ [(key, v)]) r5
              | none => none
            else none
          | [] => none
        | d :: r3 => if d = rbrace then some (.obj (acc ++ [(key, v)]), r3) else none
        | [] => none
      | none => none
    | _ => none

/-- Array body after the opening bracket (whitespace already skipped). -/
def parseArrTail : Nat → List Char → Option (Json × List Char)
  | 0, _ => none
  | fuel + 1, cs =>
    match cs with
    | [] => none
    | c :: _ =>
      if c = ']' then some (.arr [], cs.tail)
      else parseElems fuel [] cs

/-- Array elements separated by commas. -/
def parseElems : Nat → List Json → List Char → Option (Json × List Char)
  | 0, _, _ => none
  | fuel + 1, acc, cs =>
    match parseValue fuel cs with
    | some (v, r) =>
      match skipWs r with
      | ',' :: r2 => parseElems fuel (acc ++ [v]) (skipWs r2)
      | c :: r2 => if c = ']' then some (.arr (acc ++ [v]), r2) else none
      | [] => none
    | none => none

end

/-- Model of Python's `json.loads`: decode one JSON document, allowing
surrounding whitespace and rejecting trailing data (`Extra data`). -/
def json_loads (s : String) : Option Json :=
  let cs := skipWs s.data
  match parseValue (4 * s.length + 4) cs with
  | some (v, rest) => if skipWs rest = [] then some v else none
  | none => none



/-- A Pillow image as far as this backend observes it: pixel dimensions, the
color `mode`, and the `format` attribute (`None` for images not freshly read
from a container). -/
structure PILImage where
  width : Nat
  height : Nat
  mode : String
  format : Option String
deriving Repr, DecidableEq

/-- Model of `Image.convert`: allocates a fresh image in the requested mode;
a converted image's `format` attribute is `None` in Pillow. -/
def convert (image : PILImage) (mode : String) : PILImage :=
  { image with mode := mode, format := none }

/-- Model of `load_image_as_pillow` (utils/image_processing.py).  `decode`
stands for `Image.open(BytesIO(image_bytes))`, whose success depends on the
installed codecs; its `.error` carries `str(e)` of the raised exception. -/
def load_image_as_pillow (decode : List Nat → Except String PILImage)
    (image_bytes : List Nat) : Except String PILImage :=
  match decode image_bytes with
  | .error e => .error ("Failed to load image: " ++ e)
  | .ok image =>
    if image.mode = "RGB" ∨ image.mode = "L" then .ok image
    else .ok (convert image "RGB")

/-- Pillow `Image.thumbnail`'s inner `round_aspect`:
`max(min(floor(n), ceil(n), key=key), 1)` — Python's two-argument `min` with
a key returns its first argument on ties. -/
def round_aspect (number : ℚ) (key : ℤ → ℚ) : ℤ :=
  max (if key ⌊number⌋ ≤ key ⌈number⌉ then ⌊number⌋ else ⌈number⌉) 1

/-- Pillow `Image.thumbnail`'s aspect-preserving target size (its inner
`preserve_aspect_ratio`): `none` when the image already fits the requested
box; float division is modelled by exact rational division. -/
def aspectFitSize (w h mx my : Nat) : Option (Nat × Nat) :=
  if mx ≥ w ∧ my ≥ h then none
  else if (mx : ℚ) / (my : ℚ) ≥ (w : ℚ) / (h : ℚ) then
    some ((round_aspect ((my : ℚ) * ((w : ℚ) / (h : ℚ)))
      (fun n => |(w : ℚ) / (h : ℚ) - (n : ℚ) / ((w : ℚ) / (h : ℚ))|)).toNat, my)
  else
    some (mx, (round_aspect ((mx : ℚ) / ((w : ℚ) / (h : ℚ)))
      (fun n => if n = 0 then 0
        else |(w : ℚ) / (h : ℚ) - (mx : ℚ) / (n : ℚ)|)).toNat)

/-- Model of Pillow's `Image.thumbnail(size, LANCZOS)`: resizes *in place*
down to the aspect-fit size, and is a no-op when the image already fits the
box; `mode` and `format` are untouched (only the pixel buffer and `_size`
are replaced). -/
def thumbnail (image : PILImage) (size : Nat × Nat) : PILImage :=
  match aspectFitSize image.width image.height size.1 size.2 with
  | none => image
  | some (x, y) => { image with width := x, height := y }

/-- Model of `resize_image` (utils/image_processing.py): calls
`image.thumbnail(max_size, Image.Resampling.LANCZOS)` — an in-place
mutation — and returns the same object. -/
def resize_image (image : PILImage) (max_size : Nat × Nat) : PILImage :=
  thumbnail image max_size

/-- State of the caller's `image` argument after `resize_image` returns: the
object was resized in place by `thumbnail`, so it equals the returned
image. -/
def resize_image_arg_after (image : PILImage) (max_size : Nat × Nat) : PILImage :=
  thumbnail image max_size

/-- Model of `validate_image_format` (utils/image_processing.py); passing
`none` selects the default list `['JPEG', 'PNG', 'JPG', 'WEBP']`.  An image
whose `format` attribute is `None` never tests as a member of a list of
strings. -/
def validate_image_format (image : PILImage)
    (allowed_formats : Option (List String)) : Bool :=
  let allowed := allowed_formats.getD ["JPEG", "PNG", "JPG", "WEBP"]
  match image.format with
  | none => false
  | some f => allowed.contains f

/-- The mode-normalisation step of `optimize_image_for_api`: convert to RGB
unless the mode is already RGB or L. -/
def toSupportedMode (image : PILImage) : PILImage :=
  if image.mode = "RGB" ∨ image.mode = "L" then image else convert image "RGB"

/-- The image that `optimize_image_for_api` (utils/image_processing.py) hands
to the JPEG encoder: resized when either dimension exceeds `max_size`, then
converted to RGB when its mode is unsupported. -/
def optimize_image_final (image : PILImage) (max_size : Nat × Nat) : PILImage :=
  toSupportedMode (if image.width > max_size.1 ∨ image.height > max_size.2
    then resize_image image max_size else image)

/-- Model of `optimize_image_for_api`: the returned bytes are the JPEG
encoding (the parameter `encodeJPEG`, taking the image and the quality) of
`optimize_image_final`. -/
def optimize_image_for_api (encodeJPEG : PILImage → Nat → List Nat)
    (image : PILImage) (max_size : Nat × Nat) (quality : Nat) : List Nat :=
  encodeJPEG (optimize_image_final image max_size) quality

/-- State of the caller's `image` argument after `optimize_image_for_api`
returns: mutated in place by `thumbnail` exactly when the resize branch was
taken; the RGB conversion allocates a fresh image and does not touch the
argument. -/
def optimize_arg_after (image : PILImage) (max_size : Nat × Nat) : PILImage :=
  if image.width > max_size.1 ∨ image.height > max_size.2
    then thumbnail image max_size else image

/-- Model of the message of the `json.JSONDecodeError` raised by
`json.loads` on invalid input (e.g. `Expecting value: line 1 column 1
(char 0)`): the exact text varies with the failure position; no claim
depends on more than it being the failure's string description. -/
def json_decode_error_message (text : String) : String :=
  "Expecting value while decoding: " ++ text

/-- Model of `analyze_comic_cover` (utils/vision_analysis.py): PNG-encodes
and base64s the image, sends it with the fixed prompt to the external model —
here the parameter `visionCall`, whose `.error` is a raised exception
(network, API) and whose `.ok` is the completion text
`response.choices[0].message.content` — then decodes that text with
`json.loads`. -/
def analyze_comic_cover (visionCall : PILImage → Except String String)
    (pil_image : PILImage) : Except String Json :=
  match visionCall pil_image with
  | .error e => .error e
  | .ok result =>
    match json_loads result with
    | some v => .ok v
    | none => .error (json_decode_error_message result)

/-- Responses of `POST /api/comics/identify`: the HTTP 200 body
`user_id`/`metadata`, or a `JSONResponse(status_code=...)` whose body is the
single field `detail`. -/
inductive IdentifyResponse where
  | ok (user_id : String) (metadata : Json) : IdentifyResponse
  | err (status_code : Nat) (detail : String) : IdentifyResponse
deriving Repr

/-- Model of `identify_comic` (routes/identify.py): loads the upload as a
PIL image, runs the recognition, and returns the 200 body; any exception `e`
anywhere in the `try` block is caught and turned into a 500 response with
detail `f"Identification error: {str(e)}"`. -/
def identify_comic (decode : List Nat → Except String PILImage)
    (visionCall : PILImage → Except String String)
    (image_bytes : List Nat) (user_id : String) : IdentifyResponse :=
  match load_image_as_pillow decode image_bytes with
  | .error e => .err 500 ("Identification error: " ++ e)
  | .ok pil_image =>
    match analyze_comic_cover visionCall pil_image with
    | .error e => .err 500 ("Identification error: " ++ e)
    | .ok identification => .ok user_id identification

/-- Python truthiness of `os.getenv`'s result: `None` and the empty string
are falsy, every other string is truthy. -/
def pyTruthy (v : Option String) : Bool := !(v.getD "" == "")

/-- The JSON body returned by `GET /health` (main.py). -/
structure HealthResponse where
  status : String
  openai_configured : Bool
  routes_loaded : Bool
  python_version : String
  environment : String
deriving Repr, DecidableEq

/-- Model of `health_check` (main.py): the process environment is the map
`env`; `sys.version` and the presence of the identify route are ambient
inputs of the handler. -/
def health_check (env : String → Option String)
    (python_version : String) (routes_loaded : Bool) : HealthResponse :=
  { status := "healthy"
    openai_configured := pyTruthy (env "OPENAI_API_KEY")
    routes_loaded := routes_loaded
    python_version := python_version
    environment := (env "ENVIRONMENT").getD "production" }

example :
    json_loads "\x7b\"title\": \"Amazing Spider-Man\", \"issue\": \"1\"\x7d" =
      some (.obj [("title", .str "Amazing Spider-Man"), ("issue", .str "1")]) := rfl

example : json_loads "123" = some (.num "123") := rfl

example : json_loads "```json\n\x7b\"a\": 1\x7d\n```" = none := rfl

example : json_loads "[1, 2]" = some (.arr [.num "1", .num "2"]) := rfl

example : json_loads " null " = some .null := rfl

example : json_loads "-1.5e+3" = some (.num "-1.5e+3") := rfl

example : json_loads "01" = none := rfl

example : json_loads "\"a\\nb\"" = some (.str "a\nb") := rfl

example : json_loads "not json" = none := rfl

/-- Evaluation of the thumbnail target size on a 2000×1000 image bounded by
1024×1024. -/
theorem aspectFitSize_2000_1000 :
    aspectFitSize 2000 1000 1024 1024 = some (1024, 512) := by
  unfold aspectFitSize round_aspect
  norm_num
  rfl

example :
    thumbnail ⟨2000, 1000, "RGB", some "JPEG"⟩ (1024, 1024) =
      ⟨1024, 512, "RGB", some "JPEG"⟩ := by
  simp [thumbnail, aspectFitSize_2000_1000]

example :
    thumbnail ⟨800, 600, "RGB", some "JPEG"⟩ (1024, 1024) =
      ⟨800, 600, "RGB", some "JPEG"⟩ := by
  simp [thumbnail, aspectFitSize]

/-- Evaluation of `json_loads` on the mocked completion text used by the
identification scenario. -/
theorem json_loads_spiderman :
    json_loads "\x7b\"title\": \"Amazing Spider-Man\", \"issue\": \"1\"\x7d" =
      some (.obj [("title", .str "Amazing Spider-Man"), ("issue", .str "1")]) := rfl

/-- C1: when image decoding succeeds and the vision client returns the
literal text of the Spider-Man metadata object, `POST /api/comics/identify`
returns HTTP 200 whose `metadata` is the parsed object and whose `user_id`
is the submitted form value. -/
theorem identify_mocked_vision_returns_metadata
    (decode : List Nat → Except String PILImage)
    (visionCall : PILImage → Except String String)
    (image_bytes : List Nat) (user_id : String) (img : PILImage)
    (hdec : decode image_bytes = .ok img)
    (hvis : ∀ i, visionCall i =
      .ok "\x7b\"title\": \"Amazing Spider-Man\", \"issue\": \"1\"\x7d") :
    identify_comic decode visionCall image_bytes user_id =
      .ok user_id (.obj [("title", .str "Amazing Spider-Man"), ("issue", .str "1")]) := by
  unfold identify_comic load_image_as_pillow analyze_comic_cover
  rw [hdec]
  by_cases hm : img.mode = "RGB" ∨ img.mode = "L" <;>
    simp [hm, hvis, json_loads_spiderman]

/-- Witness for C1 at a concrete decoder, vision reply, upload and user. -/
theorem identify_mocked_vision_returns_metadata_witness :
    identify_comic (fun _ => .ok ⟨800, 600, "RGB", some "JPEG"⟩)
      (fun _ => .ok "\x7b\"title\": \"Amazing Spider-Man\", \"issue\": \"1\"\x7d")
      [0, 1, 2] "user-42" =
      .ok "user-42" (.obj [("title", .str "Amazing Spider-Man"), ("issue", .str "1")]) :=
  identify_mocked_vision_returns_metadata _ _ _ _ _ rfl (fun _ => rfl)

/-- C2: every pipeline failure — decode error, vision-call error, or
unparseable model output — yields HTTP 500 with body detail
`"Identification error: <message>"`, where `<message>` is the failure's
string description; all three kinds collapse to this one shape. -/
theorem identify_failure_shape
    (decode : List Nat → Except String PILImage)
    (visionCall : PILImage → Except String String)
    (image_bytes : List Nat) (user_id : String) :
    (∀ e, decode image_bytes = .error e →
      identify_comic decode visionCall image_bytes user_id =
        .err 500 ("Identification error: " ++ ("Failed to load image: " ++ e))) ∧
    (∀ img m, decode image_bytes = .ok img → (∀ i, visionCall i = .error m) →
      identify_comic decode visionCall image_bytes user_id =
        .err 500 ("Identification error: " ++ m)) ∧
    (∀ img t, decode image_bytes = .ok img → (∀ i, visionCall i = .ok t) →
      json_loads t = none →
      identify_comic decode visionCall image_bytes user_id =
        .err 500 ("Identification error: " ++ json_decode_error_message t)) := by
  refine ⟨fun e he => ?_, fun img m hd hv => ?_, fun img t hd hv hj => ?_⟩
  · unfold identify_comic load_image_as_pillow
    rw [he]
  · unfold identify_comic load_image_as_pillow analyze_comic_cover
    rw [hd]
    by_cases hm : img.mode = "RGB" ∨ img.mode = "L" <;> simp [hm, hv]
  · unfold identify_comic load_image_as_pillow analyze_comic_cover
    rw [hd]
    by_cases hm : img.mode = "RGB" ∨ img.mode = "L" <;> simp [hm, hv, hj]

/-- Witness for C2: a concrete decode failure produces the 500 response with
the wrapped message. -/
theorem identify_failure_shape_witness :
    identify_comic (fun _ => .error "cannot identify image file")
      (fun _ => .error "unused") [7] "u1" =
      .err 500 "Identification error: Failed to load image: cannot identify image file" :=
  (identify_failure_shape _ _ _ _).1 _ rfl

/-- C3: whenever the byte stream decodes, `load_image_as_pillow` returns an
image whose mode is RGB or L, and the mode is RGB whenever the source mode
was outside that set. -/
theorem load_image_mode_normalized
    (decode : List Nat → Except String PILImage) (image_bytes : List Nat)
    (img : PILImage) (hdec : decode image_bytes = .ok img) :
    ∃ out, load_image_as_pillow decode image_bytes = .ok out ∧
      (out.mode = "RGB" ∨ out.mode = "L") ∧
      (¬(img.mode = "RGB" ∨ img.mode = "L") → out.mode = "RGB") := by
  unfold load_image_as_pillow
  rw [hdec]
  by_cases hm : img.mode = "RGB" ∨ img.mode = "L"
  · exact ⟨img, by simp [hm], hm, fun hc => absurd hm hc⟩
  · exact ⟨convert img "RGB", by simp [hm], Or.inl rfl, fun _ => rfl⟩

/-- Witness for C3 at a concrete RGBA source image. -/
theorem load_image_mode_normalized_witness :
    ∃ out, load_image_as_pillow (fun _ => .ok ⟨10, 20, "RGBA", some "PNG"⟩) [0] =
        .ok out ∧
      (out.mode = "RGB" ∨ out.mode = "L") ∧
      (¬((PILImage.mk 10 20 "RGBA" (some "PNG")).mode = "RGB" ∨
          (PILImage.mk 10 20 "RGBA" (some "PNG")).mode = "L") → out.mode = "RGB") :=
  load_image_mode_normalized _ _ _ rfl

/-- C4: for a byte stream the decoder rejects, the pipeline fails with the
wrapped `ValueError` message and the response does not depend on the vision
client — the vision client is never reached. -/
theorem decode_failure_before_vision
    (decode : List Nat → Except String PILImage)
    (v1 v2 : PILImage → Except String String)
    (image_bytes : List Nat) (user_id : String) (e : String)
    (hdec : decode image_bytes = .error e) :
    identify_comic decode v1 image_bytes user_id =
      .err 500 ("Identification error: " ++ ("Failed to load image: " ++ e)) ∧
    identify_comic decode v1 image_bytes user_id =
      identify_comic decode v2 image_bytes user_id := by
  unfold identify_comic load_image_as_pillow
  rw [hdec]
  exact ⟨rfl, rfl⟩

/-- Witness for C4: a concrete undecodable upload, under two vision clients
that disagree everywhere. -/
theorem decode_failure_before_vision_witness :
    identify_comic (fun _ => .error "broken header")
      (fun _ => .ok "\"a\"") [255] "u2" =
      .err 500 "Identification error: Failed to load image: broken header" ∧
    identify_comic (fun _ => .error "broken header")
      (fun _ => .ok "\"a\"") [255] "u2" =
      identify_comic (fun _ => .error "broken header")
        (fun _ => .error "down") [255] "u2" :=
  decode_failure_before_vision _ _ _ _ _ _ rfl

/-- C5 counterexample: on the completion text `123`, `json.loads` succeeds
and the parser returns a value that is not a JSON-object mapping, so the
parser does not fail exactly on non-objects as the claim reads. -/
theorem analyze_success_not_object :
    analyze_comic_cover (fun _ => .ok "123") ⟨100, 150, "RGB", some "JPEG"⟩ =
      .ok (.num "123") ∧ ∀ members, Json.num "123" ≠ Json.obj members :=
  ⟨rfl, fun _ h => Json.noConfusion h⟩

/-- C5 amended: the result parser returns the decoded JSON value — of any
kind, not only objects — whenever the text is valid JSON, and fails with the
decode-error description exactly when it is not. -/
theorem analyze_decodes_iff_valid_json
    (visionCall : PILImage → Except String String) (img : PILImage) (t : String)
    (hvis : visionCall img = .ok t) :
    (∀ v, json_loads t = some v → analyze_comic_cover visionCall img = .ok v) ∧
    (json_loads t = none →
      analyze_comic_cover visionCall img = .error (json_decode_error_message t)) := by
  unfold analyze_comic_cover
  rw [hvis]
  exact ⟨fun v hv => by simp [hv], fun hn => by simp [hn]⟩

/-- Witness for C5 (amended) on markdown-fenced model output, which is not
valid JSON and therefore fails. -/
theorem analyze_decodes_iff_valid_json_witness :
    analyze_comic_cover (fun _ => .ok "```json\n\x7b\"a\": 1\x7d\n```")
      ⟨10, 10, "RGB", some "PNG"⟩ =
      .error (json_decode_error_message "```json\n\x7b\"a\": 1\x7d\n```") :=
  (analyze_decodes_iff_valid_json _ _ _ rfl).2 rfl

/-- C8: `GET /health` reports `openai_configured` false when the credential
variable is unset and true when it is set to any non-empty value; and the
whole response depends on the credential only through its truthiness, so it
never reveals the credential's value. -/
theorem health_reports_openai_configured
    (env : String → Option String) (python_version : String) (routes_loaded : Bool) :
    (env "OPENAI_API_KEY" = none →
      (health_check env python_version routes_loaded).openai_configured = false) ∧
    (∀ s, env "OPENAI_API_KEY" = some s → s ≠ "" →
      (health_check env python_version routes_loaded).openai_configured = true) ∧
    (∀ env2 : String → Option String,
      (∀ k, k ≠ "OPENAI_API_KEY" → env k = env2 k) →
      pyTruthy (env "OPENAI_API_KEY") = pyTruthy (env2 "OPENAI_API_KEY") →
      health_check env python_version routes_loaded =
        health_check env2 python_version routes_loaded) := by
  refine ⟨fun h => ?_, fun s hs hne => ?_, fun env2 hagree htr => ?_⟩
  · simp [health_check, pyTruthy, h]
  · simp [health_check, pyTruthy, hs, hne]
  · have henv : env "ENVIRONMENT" = env2 "ENVIRONMENT" :=
      hagree "ENVIRONMENT" (by decide)
    simp [health_check, htr, henv]

/-- Witness for C8: with the credential unset, the flag is false. -/
theorem health_reports_openai_configured_witness :
    (health_check (fun _ => none) "3.11.0 (main)" true).openai_configured = false :=
  (health_reports_openai_configured _ _ _).1 rfl

/-- C10: with the default allowed list, `validate_image_format` is false on
every image whose `format` attribute is `None` — in particular on the RGB
conversion produced by `load_image_as_pillow` — and true exactly when the
format is one of JPEG, PNG, JPG, WEBP. -/
theorem validate_format_default_behaviour (img : PILImage) :
    (img.format = none → validate_image_format img none = false) ∧
    (validate_image_format img none = true ↔
      ∃ f, img.format = some f ∧ f ∈ ["JPEG", "PNG", "JPG", "WEBP"]) ∧
    (∀ (decode : List Nat → Except String PILImage) (image_bytes : List Nat)
      (src : PILImage), decode image_bytes = .ok src →
      ¬(src.mode = "RGB" ∨ src.mode = "L") →
      load_image_as_pillow decode image_bytes = .ok (convert src "RGB") ∧
      validate_image_format (convert src "RGB") none = false) := by
  refine ⟨fun h => ?_, ?_, fun decode image_bytes src hd hm => ?_⟩
  · simp [validate_image_format, h]
  · cases hf : img.format with
    | none => simp [validate_image_format, hf]
    | some f => simp [validate_image_format, hf]
  · constructor
    · unfold load_image_as_pillow
      rw [hd]
      simp [hm]
    · simp [validate_image_format, convert]

/-- Witness for C10: a palette-mode PNG image is converted by
`load_image_as_pillow` and the conversion then fails validation. -/
theorem validate_format_default_behaviour_witness :
    load_image_as_pillow (fun _ => .ok ⟨4, 4, "P", some "PNG"⟩) [9] =
      .ok (convert ⟨4, 4, "P", some "PNG"⟩ "RGB") ∧
    validate_image_format (convert ⟨4, 4, "P", some "PNG"⟩ "RGB") none = false :=
  (validate_format_default_behaviour ⟨4, 4, "P", some "PNG"⟩).2.2 _ _ _ rfl
    (by simp)

/-- `round_aspect` never exceeds an integer bound that is at least 1 and at
least the rounded quantity, whichever rounding the key selects. -/
theorem round_aspect_le (number : ℚ) (key : ℤ → ℚ) (b : ℤ)
    (hb : 1 ≤ b) (h : number ≤ (b : ℚ)) : round_aspect number key ≤ b := by
  have hc : ⌈number⌉ ≤ b := Int.ceil_le.mpr h
  have hf : ⌊number⌋ ≤ b := le_trans (Int.floor_le_ceil number) hc
  unfold round_aspect
  by_cases hk : key ⌊number⌋ ≤ key ⌈number⌉
  · rw [if_pos hk]
    exact max_le hf hb
  · rw [if_neg hk]
    exact max_le hc hb

/-- Whenever the aspect-fit computation produces a target size, that size
fits the requested box (for positive dimensions and bounds). -/
theorem aspectFitSize_le (w h mx my : Nat) (hw : 0 < w) (hh : 0 < h)
    (hmx : 0 < mx) (hmy : 0 < my) (xy : Nat × Nat)
    (hfit : aspectFitSize w h mx my = some xy) : xy.1 ≤ mx ∧ xy.2 ≤ my := by
  unfold aspectFitSize at hfit
  by_cases h0 : mx ≥ w ∧ my ≥ h
  · rw [if_pos h0] at hfit
    cases hfit
  · rw [if_neg h0] at hfit
    by_cases hbr : (mx : ℚ) / (my : ℚ) ≥ (w : ℚ) / (h : ℚ)
    · rw [if_pos hbr] at hfit
      injection hfit with hxy
      subst hxy
      refine ⟨?_, le_refl my⟩
      have h1 : (0 : ℚ) < (my : ℚ) := by exact_mod_cast hmy
      have hnum : (my : ℚ) * ((w : ℚ) / (h : ℚ)) ≤ (mx : ℚ) := by
        have h2 := (le_div_iff₀ h1).mp hbr
        linarith
      exact Int.toNat_le.mpr (round_aspect_le _ _ _ (by exact_mod_cast hmx)
        (by exact_mod_cast hnum))
    · rw [if_neg hbr] at hfit
      injection hfit with hxy
      subst hxy
      refine ⟨le_refl mx, ?_⟩
      have haq : (0 : ℚ) < (w : ℚ) / (h : ℚ) :=
        div_pos (by exact_mod_cast hw) (by exact_mod_cast hh)
      have h1 : (0 : ℚ) < (my : ℚ) := by exact_mod_cast hmy
      have hlt : (mx : ℚ) / (my : ℚ) < (w : ℚ) / (h : ℚ) := lt_of_not_ge hbr
      have hnum : (mx : ℚ) / ((w : ℚ) / (h : ℚ)) < (my : ℚ) := by
        rw [div_lt_iff₀ haq]
        have h2 := (div_lt_iff₀ h1).mp hlt
        linarith
      exact Int.toNat_le.mpr (round_aspect_le _ _ _ (by exact_mod_cast hmy)
        (by exact_mod_cast hnum.le))

/-- An image already inside the box is left alone by the aspect-fit check. -/
theorem aspectFitSize_of_within (w h mx my : Nat) (h1 : w ≤ mx) (h2 : h ≤ my) :
    aspectFitSize w h mx my = none := by
  unfold aspectFitSize
  exact if_pos ⟨h1, h2⟩

/-- Conversely, the aspect-fit check returns `none` only inside the box. -/
theorem aspectFitSize_none_bounds (w h mx my : Nat)
    (hn : aspectFitSize w h mx my = none) : w ≤ mx ∧ h ≤ my := by
  by_cases hc : mx ≥ w ∧ my ≥ h
  · exact ⟨hc.1, hc.2⟩
  · unfold aspectFitSize at hn
    rw [if_neg hc] at hn
    by_cases hbr : (mx : ℚ) / (my : ℚ) ≥ (w : ℚ) / (h : ℚ)
    · rw [if_pos hbr] at hn
      cases hn
    · rw [if_neg hbr] at hn
      cases hn

/-- `Image.thumbnail` is a no-op on an image already inside the box. -/
theorem thumbnail_of_within (image : PILImage) (mx my : Nat)
    (h1 : image.width ≤ mx) (h2 : image.height ≤ my) :
    thumbnail image (mx, my) = image := by
  unfold thumbnail
  rw [aspectFitSize_of_within _ _ _ _ h1 h2]

/-- After `Image.thumbnail`, both dimensions fit the (positive) box. -/
theorem thumbnail_dims_le (image : PILImage) (mx my : Nat)
    (hw : 0 < image.width) (hh : 0 < image.height) (hmx : 0 < mx) (hmy : 0 < my) :
    (thumbnail image (mx, my)).width ≤ mx ∧
      (thumbnail image (mx, my)).height ≤ my := by
  unfold thumbnail
  cases hfit : aspectFitSize image.width image.height mx my with
  | none =>
    have hb := aspectFitSize_none_bounds _ _ _ _ hfit
    simp [hb.1, hb.2]
  | some xy =>
    have hb := aspectFitSize_le _ _ _ _ hw hh hmx hmy xy hfit
    cases xy with
    | mk x y =>
      simpa using ⟨hb.1, hb.2⟩

/-- Applying `Image.thumbnail` twice with the same box equals applying it
once. -/
theorem thumbnail_idem (image : PILImage) (mx my : Nat)
    (hw : 0 < image.width) (hh : 0 < image.height) (hmx : 0 < mx) (hmy : 0 < my) :
    thumbnail (thumbnail image (mx, my)) (mx, my) = thumbnail image (mx, my) := by
  have hb := thumbnail_dims_le image mx my hw hh hmx hmy
  exact thumbnail_of_within _ _ _ hb.1 hb.2

/-- Evaluation of the in-place thumbnail on a 2000×1000 RGB JPEG bounded by
1024×1024. -/
theorem thumbnail_2000_1000 :
    thumbnail ⟨2000, 1000, "RGB", some "JPEG"⟩ (1024, 1024) =
      ⟨1024, 512, "RGB", some "JPEG"⟩ := by
  unfold thumbnail
  simp [aspectFitSize_2000_1000]

/-- C9: `resize_image` never enlarges — an image already within the bound
comes back with unchanged dimensions — and (for positive dimensions and a
positive bound, where the Python code does not divide by zero) it is
idempotent for a fixed bound. -/
theorem resize_image_no_enlarge_idem (image : PILImage) (mx my : Nat) :
    (image.width ≤ mx → image.height ≤ my → resize_image image (mx, my) = image) ∧
    (0 < image.width → 0 < image.height → 0 < mx → 0 < my →
      resize_image (resize_image image (mx, my)) (mx, my) =
        resize_image image (mx, my)) :=
  ⟨fun h1 h2 => thumbnail_of_within image mx my h1 h2,
   fun hw hh hmx hmy => thumbnail_idem image mx my hw hh hmx hmy⟩

/-- Witness for C9: idempotence at the concrete 2000×1000 image and the
1024×1024 bound. -/
theorem resize_image_no_enlarge_idem_witness :
    resize_image (resize_image ⟨2000, 1000, "RGB", some "JPEG"⟩ (1024, 1024))
        (1024, 1024) =
      resize_image ⟨2000, 1000, "RGB", some "JPEG"⟩ (1024, 1024) :=
  (resize_image_no_enlarge_idem ⟨2000, 1000, "RGB", some "JPEG"⟩ 1024 1024).2
    (by decide) (by decide) (by decide) (by decide)

/-- The mode-normalisation step never changes the dimensions. -/
theorem toSupportedMode_dims (image : PILImage) :
    (toSupportedMode image).width = image.width ∧
      (toSupportedMode image).height = image.height := by
  unfold toSupportedMode
  by_cases hm : image.mode = "RGB" ∨ image.mode = "L" <;> simp [hm, convert]

/-- C6: resizing a 2000×1000 image with bound 1024×1024 yields an image no
wider and no taller than 1024 with the exact 2:1 proportion kept
(1024×512); and `optimize_image_for_api` applies the resize step only when a
source dimension exceeds the bounding box — inside the box the argument and
the encoded image's dimensions are untouched, outside it the in-place resize
runs. -/
theorem resize_bound_and_optimize_guard :
    ((resize_image ⟨2000, 1000, "RGB", some "JPEG"⟩ (1024, 1024)).width ≤ 1024 ∧
     (resize_image ⟨2000, 1000, "RGB", some "JPEG"⟩ (1024, 1024)).height ≤ 1024 ∧
     (resize_image ⟨2000, 1000, "RGB", some "JPEG"⟩ (1024, 1024)).width * 1000 =
       (resize_image ⟨2000, 1000, "RGB", some "JPEG"⟩ (1024, 1024)).height * 2000) ∧
    (∀ (image : PILImage) (mx my : Nat), image.width ≤ mx → image.height ≤ my →
      optimize_arg_after image (mx, my) = image ∧
      (optimize_image_final image (mx, my)).width = image.width ∧
      (optimize_image_final image (mx, my)).height = image.height) ∧
    (∀ (image : PILImage) (mx my : Nat), mx < image.width ∨ my < image.height →
      optimize_arg_after image (mx, my) = resize_image image (mx, my)) := by
  refine ⟨?_, fun image mx my h1 h2 => ?_, fun image mx my hgt => ?_⟩
  · rw [show resize_image ⟨2000, 1000, "RGB", some "JPEG"⟩ (1024, 1024) =
        thumbnail ⟨2000, 1000, "RGB", some "JPEG"⟩ (1024, 1024) from rfl,
      thumbnail_2000_1000]
    refine ⟨by norm_num, by norm_num, by norm_num⟩
  · have hcond : ¬(image.width > mx ∨ image.height > my) := by omega
    have hfin : optimize_image_final image (mx, my) = toSupportedMode image := by
      unfold optimize_image_final
      rw [if_neg hcond]
    refine ⟨by simp [optimize_arg_after, hcond], ?_, ?_⟩
    · rw [hfin]
      exact (toSupportedMode_dims image).1
    · rw [hfin]
      exact (toSupportedMode_dims image).2
  · simp only [optimize_arg_after, resize_image]
    rw [if_pos hgt]

/-- Witness for C6: a 640×480 grayscale image inside the box is untouched by
`optimize_image_for_api`'s resize guard. -/
theorem resize_bound_and_optimize_guard_witness :
    optimize_arg_after ⟨640, 480, "L", none⟩ (1024, 1024) =
      (⟨640, 480, "L", none⟩ : PILImage) ∧
    (optimize_image_final ⟨640, 480, "L", none⟩ (1024, 1024)).width =
      (PILImage.mk 640 480 "L" none).width ∧
    (optimize_image_final ⟨640, 480, "L", none⟩ (1024, 1024)).height =
      (PILImage.mk 640 480 "L" none).height :=
  resize_bound_and_optimize_guard.2.1 ⟨640, 480, "L", none⟩ 1024 1024
    (by decide) (by decide)

/-- C7 counterexample: after `resize_image` on a 2000×1000 image with bound
1024×1024, the caller's `image` argument has been resized in place by
`Image.thumbnail`, so it is not left unmodified. -/
theorem resize_image_mutates_argument :
    resize_image_arg_after ⟨2000, 1000, "RGB", some "JPEG"⟩ (1024, 1024) ≠
      (⟨2000, 1000, "RGB", some "JPEG"⟩ : PILImage) := by
  unfold resize_image_arg_after
  rw [thumbnail_2000_1000]
  decide

/-- C7 amended: the operations are deterministic transforms with no effects
beyond the image objects, but `resize_image` resizes the caller's argument
in place (the argument after the call is exactly the returned image), and
`optimize_image_for_api` mutates the caller's argument precisely when the
resize step runs; both leave the argument unmodified whenever the image
already fits the bound. -/
theorem image_ops_mutation_profile (image : PILImage) (mx my : Nat) :
    resize_image_arg_after image (mx, my) = resize_image image (mx, my) ∧
    (image.width ≤ mx → image.height ≤ my →
      resize_image_arg_after image (mx, my) = image ∧
      optimize_arg_after image (mx, my) = image) ∧
    (mx < image.width ∨ my < image.height →
      optimize_arg_after image (mx, my) = resize_image image (mx, my)) := by
  refine ⟨rfl, fun h1 h2 => ?_, fun hgt => ?_⟩
  · have hcond : ¬(image.width > mx ∨ image.height > my) := by omega
    exact ⟨thumbnail_of_within image mx my h1 h2,
      by simp [optimize_arg_after, hcond]⟩
  · simp only [optimize_arg_after, resize_image]
    rw [if_pos hgt]

/-- Witness for C7 (amended): an 800×600 image inside the 1024×1024 bound is
left unmodified by both operations. -/
theorem image_ops_mutation_profile_witness :
    resize_image_arg_after ⟨800, 600, "RGB", some "JPEG"⟩ (1024, 1024) =
      (⟨800, 600, "RGB", some "JPEG"⟩ : PILImage) ∧
    optimize_arg_after ⟨800, 600, "RGB", some "JPEG"⟩ (1024, 1024) =
      (⟨800, 600, "RGB", some "JPEG"⟩ : PILImage) :=
  (image_ops_mutation_profile ⟨800, 600, "RGB", some "JPEG"⟩ 1024 1024).2.1
    (by decide) (by decide)
